import Mathlib

/-!
Verification of the simulation core of the `evolution-game` repository
(`src/main.rs`), a bevy-based artificial-life simulation.

The Rust source is shallowly embedded here:
* `f32` values are modelled as rationals (`ℚ`), except for the heading
  rotation helper, which calls `cos`/`sin`/`sqrt` and is modelled over `ℝ`;
* calls to `rand::random::<f32>()` (uniform draws in `[0,1)`) are modelled
  as explicit oracle arguments;
* bevy `Commands` operations (spawn/despawn) are deferred in bevy: they are
  buffered and applied after the emitting system finishes.  The embedding
  models this by collecting spawn/despawn requests in lists while the
  queried entity sets stay fixed during a system's pass;
* the declarative bevy system schedule of `HelloPlugin::build` is embedded
  as the list of its declared `before`/`after` ordering constraints.
-/

namespace EvolutionGame

/-! ## Embedded definitions -/

def TIME_STEP : ℚ := 1 / 60
def SIMULATION_SPEED : ℚ := 5
def TOP_BOUNDARY : ℚ := 300
def BOTTOM_BOUNDARY : ℚ := -300
def RIGHT_BOUNDARY : ℚ := 600
def LEFT_BOUNDARY : ℚ := -600
def ORGANISM_DEFAULT_SPEED : ℚ := 8
def ORGANISM_VISION : ℚ := 100
def PREGNANT_PROBABILITY : ℚ := 1 / 2
def CHILDREN_PER_PREGNANCY : ℕ := 10
def PREGNANCY_ENERGY_MINIMUM : ℚ := 2
def ORGANISM_MIN_ENERGY : ℚ := 1 / 5
def ORGANISM_MAX_ENERGY : ℚ := 4
def ORGANISM_DEFAULT_LIFETIME : ℕ := 100
def FERTILE_AGE : ℕ := ORGANISM_DEFAULT_LIFETIME / 4
def FOOD_LIFETIME : ℕ := 100
def MUTATION_RATE : ℚ := 1 / 5

/-- Rust `f32::clamp`: `x.clamp(lo, hi)` (with `lo ≤ hi` in every use site). -/
def clamp (x lo hi : ℚ) : ℚ := min (max x lo) hi

/-- The genome: `struct GeneInfo([f32; 27])`. -/
abbrev Genome := Fin 27 → ℚ

/-- `GeneInfo::mutate`, generalized over the mutation probability `p`
(the source fixes `p = MUTATION_RATE`).  Per gene `i`, `r1 i` is the
mutation-decision draw and `r2 i` the offset draw, both uniform in `[0,1)`:
`if rand < p { (g + rand/2.0 - 0.25).clamp(-1.0, 1.0) } else { g }`. -/
def mutateWith (p : ℚ) (g : Genome) (r1 r2 : Fin 27 → ℚ) : Genome := fun i =>
  if r1 i < p then clamp (g i + r2 i / 2 - 1 / 4) (-1) 1 else g i

/-- `GeneInfo::mutate` as in the source, with `p = MUTATION_RATE`. -/
def mutate (g : Genome) (r1 r2 : Fin 27 → ℚ) : Genome :=
  mutateWith MUTATION_RATE g r1 r2

/-- `GeneInfo::process`: decodes the genome and an 8-element input vector
into the 3 outputs `[delta_x, delta_y, delta_a]`.  Output 0 uses bias
`gene[0]` and weights `gene[3..=10]`, output 1 uses `gene[1]` and
`gene[11..=18]`, output 2 uses `gene[2]` and `gene[19..=26]`; each output
is clamped to `[-1, 1]`. -/
def process (g : Genome) (inputs : Fin 8 → ℚ) : Fin 3 → ℚ := fun j =>
  match j with
  | ⟨0, _⟩ => clamp (g ⟨0, by omega⟩ +
      ∑ i : Fin 8, g ⟨3 + i.val, by have := i.isLt; omega⟩ * inputs i) (-1) 1
  | ⟨1, _⟩ => clamp (g ⟨1, by omega⟩ +
      ∑ i : Fin 8, g ⟨11 + i.val, by have := i.isLt; omega⟩ * inputs i) (-1) 1
  | ⟨2, _⟩ => clamp (g ⟨2, by omega⟩ +
      ∑ i : Fin 8, g ⟨19 + i.val, by have := i.isLt; omega⟩ * inputs i) (-1) 1
  | ⟨n + 3, h⟩ => absurd h (by omega)

/-- The genome index holding the bias of output `j` (spec §4.1). -/
def biasIndex (j : Fin 3) : Fin 27 := ⟨j.val, by have := j.isLt; omega⟩

/-- The genome index holding weight `i` of output `j` (spec §4.1). -/
def weightIndex (j : Fin 3) (i : Fin 8) : Fin 27 :=
  ⟨3 + 8 * j.val + i.val, by have := j.isLt; have := i.isLt; omega⟩

/-- The set of bias indices. -/
def biasSet : Finset (Fin 27) := Finset.univ.image biasIndex

/-- The weight-index group of output `j`. -/
def weightSet (j : Fin 3) : Finset (Fin 27) := Finset.univ.image (weightIndex j)

/-- Test genome for the C5 witness. -/
def testGene : Genome := fun i => if i.val = 0 then 1 else -(1 / 2)

/-- Decision draws for the C5 witness: gene 0 mutates, the rest do not. -/
def testR1 : Fin 27 → ℚ := fun i => if i.val = 0 then 1 / 10 else 1 / 2

/-- Offset draws for the C5 witness. -/
def testR2 : Fin 27 → ℚ := fun _ => 3 / 4

/-- Contact classification, `bevy::sprite::collide_aabb::Collision`. -/
inductive Collision
  | Left
  | Right
  | Top
  | Bottom
  | Inside
deriving DecidableEq

/-- Comparison `y_depth.abs() < x_depth.abs()` from `collide_aabb::collide`,
where a side that did not hit carries depth `-f32::INFINITY` (modelled as
`none`, whose absolute value compares greater than every finite value). -/
def depthAbsLt (yd xd : Option ℚ) : Bool :=
  match yd, xd with
  | some a, some b => decide (|a| < |b|)
  | some _, none => true
  | none, _ => false

/-- `bevy::sprite::collide_aabb::collide` (bevy 0.10), the AABB overlap
test and edge classification the repository calls in
`check_for_collisions`.  Positions are rectangle centres, sizes full
extents. -/
def collide (aPos aSize bPos bSize : ℚ × ℚ) : Option Collision :=
  let aMin := (aPos.1 - aSize.1 / 2, aPos.2 - aSize.2 / 2)
  let aMax := (aPos.1 + aSize.1 / 2, aPos.2 + aSize.2 / 2)
  let bMin := (bPos.1 - bSize.1 / 2, bPos.2 - bSize.2 / 2)
  let bMax := (bPos.1 + bSize.1 / 2, bPos.2 + bSize.2 / 2)
  if aMin.1 < bMax.1 ∧ aMax.1 > bMin.1 ∧ aMin.2 < bMax.2 ∧ aMax.2 > bMin.2 then
    let xc : Collision × Option ℚ :=
      if aMin.1 < bMin.1 ∧ aMax.1 > bMin.1 ∧ aMax.1 < bMax.1 then
        (Collision.Left, some (bMin.1 - aMax.1))
      else if aMin.1 > bMin.1 ∧ aMin.1 < bMax.1 ∧ aMax.1 > bMax.1 then
        (Collision.Right, some (aMin.1 - bMax.1))
      else (Collision.Inside, none)
    let yc : Collision × Option ℚ :=
      if aMin.2 < bMin.2 ∧ aMax.2 > bMin.2 ∧ aMax.2 < bMax.2 then
        (Collision.Bottom, some (bMin.2 - aMax.2))
      else if aMin.2 > bMin.2 ∧ aMin.2 < bMax.2 ∧ aMax.2 > bMax.2 then
        (Collision.Top, some (aMin.2 - bMax.2))
      else (Collision.Inside, none)
    if depthAbsLt yc.2 xc.2 then some yc.1 else some xc.1
  else
    none

/-- The wall-reflection block of `check_for_collisions` (the non-food
branch): flags `reflect_x`/`reflect_y` are set from the contact
classification only when the heading component points into the wall, then
the flagged components are negated. -/
def wallReflect (d : ℚ × ℚ) (c : Collision) : ℚ × ℚ :=
  let reflectX : Bool :=
    match c with
    | Collision.Left => decide (d.1 > 0)
    | Collision.Right => decide (d.1 < 0)
    | _ => false
  let reflectY : Bool :=
    match c with
    | Collision.Top => decide (d.2 < 0)
    | Collision.Bottom => decide (d.2 > 0)
    | _ => false
  let d1 := if reflectX then (-d.1, d.2) else d
  if reflectY then (d1.1, -d1.2) else d1

/-- The organism components read and written by `check_for_collisions`:
`(&mut Direction, &Transform, &Age, &mut Energy, &mut Pregnant)`.
`size` is `transform.scale.truncate()`. -/
structure OrgCol where
  dir : ℚ × ℚ
  pos : ℚ × ℚ
  size : ℚ × ℚ
  age : ℕ
  energy : ℚ
  pregnant : Bool

/-- A collider entity: a wall or a food item (`With<Collider>`), with
`size = transform.scale.truncate()` and, for food, the `Energy` component
it was spawned with. -/
structure Collider where
  pos : ℚ × ℚ
  size : ℚ × ℚ
  isFood : Bool
  energy : ℚ

/-- `generate_food` spawns each food item with `FOOD_SIZE` (4×4),
`Energy(0.1)` and a `Collider` tag at a random position. -/
def spawnFood (pos : ℚ × ℚ) : Collider :=
  { pos := pos, size := (4, 4), isFood := true, energy := 1 / 10 }

/-- The collision events of `enum CollisionEvent`. -/
inductive CollisionEvent
  | Wall
  | Food
deriving DecidableEq

/-- State threaded through one organism's pass over the colliders:
the organism's mutable components, the buffered (deferred) food despawn
commands, the emitted events, and the index of the next random draw. -/
structure PassState where
  org : OrgCol
  despawn : List ℕ
  events : List CollisionEvent
  rng : ℕ

/-- Initial pass state for one organism. -/
def initPass (o : OrgCol) : PassState :=
  { org := o, despawn := [], events := [], rng := 0 }

/-- The inner loop of `check_for_collisions`: one organism against the
collider list (pairs of entity index and collider).  Food despawns are
deferred commands, so they are buffered in `despawn` and the collider
list itself never shrinks during the pass.  On a food hit the organism
gains the hard-coded `0.2` energy and, when the post-credit energy and age
thresholds hold, consumes one uniform draw to decide pregnancy; on any
other collider hit a `Wall` event is emitted and the heading is reflected
per `wallReflect`. -/
def collideOne (colliders : List (ℕ × Collider)) (draws : ℕ → ℚ)
    (s : PassState) : PassState :=
  colliders.foldl
    (fun st ic =>
      match collide st.org.pos st.org.size ic.2.pos ic.2.size with
      | none => st
      | some col =>
        if ic.2.isFood then
          let newEnergy := st.org.energy + 1 / 5
          let thresholds : Bool :=
            decide (newEnergy > PREGNANCY_ENERGY_MINIMUM ∧ st.org.age > FERTILE_AGE)
          let newPregnant : Bool :=
            if thresholds && decide (draws st.rng < PREGNANT_PROBABILITY) then true
            else st.org.pregnant
          { org := { st.org with energy := newEnergy, pregnant := newPregnant }
            despawn := st.despawn ++ [ic.1]
            events := st.events ++ [CollisionEvent.Food]
            rng := if thresholds then st.rng + 1 else st.rng }
        else
          { st with
            org := { st.org with dir := wallReflect st.org.dir col }
            events := st.events ++ [CollisionEvent.Wall] })
    s

/-- Result of a full `check_for_collisions` pass. -/
structure CollisionsResult where
  orgs : List OrgCol
  despawn : List ℕ
  events : List CollisionEvent
  rng : ℕ

/-- `check_for_collisions`: every organism is tested against every
collider; despawn commands stay buffered for the whole pass. -/
def checkForCollisions (orgs : List OrgCol) (colliders : List Collider)
    (draws : ℕ → ℚ) : CollisionsResult :=
  orgs.foldl
    (fun acc o =>
      let s := collideOne colliders.enum draws
        { org := o, despawn := acc.despawn, events := acc.events, rng := acc.rng }
      { orgs := acc.orgs ++ [s.org], despawn := s.despawn, events := s.events,
        rng := s.rng })
    { orgs := [], despawn := [], events := [], rng := 0 }

/-- A concrete wall collider for the C4 witness: the organism's box
`[-5,5]²` penetrates its left edge. -/
def testWall : Collider :=
  { pos := (8, 0), size := (10, 40), isFood := false, energy := 0 }

/-- A concrete organism for the C4 witness. -/
def testOrg4 : OrgCol :=
  { dir := (3, 5), pos := (0, 0), size := (10, 10), age := 1, energy := 1,
    pregnant := false }

/-- A concrete organism for the C3 counterexample: the default organism
footprint (15×15) at the origin. -/
def testOrg3 : OrgCol :=
  { dir := (1, 0), pos := (0, 0), size := (15, 15), age := 30, energy := 1,
    pregnant := false }

/-- A fixed draw oracle. -/
def testDraws : ℕ → ℚ := fun _ => 3 / 4

/-- A second concrete organism overlapping the same food as `testOrg3`. -/
def testOrg10 : OrgCol :=
  { dir := (0, 1), pos := (3, 0), size := (15, 15), age := 40, energy := 3,
    pregnant := false }

/-- The full organism record (components spawned in `startup` and in
`grow_organism`). -/
structure Organism where
  pos : ℚ × ℚ
  dir : ℚ × ℚ
  speed : ℚ
  energy : ℚ
  age : ℕ
  lifetime : ℕ
  gene : Genome
  pregnant : Bool

/-- The component bundle `grow_organism` spawns for one child: the
parent's position, a mutated copy of the parent's genome (`r1`/`r2` are
that child's own mutation draws), `Energy(0.5)`, `Age(1)`, the default
lifetime and speed, not pregnant, and a freshly drawn heading `d`. -/
def growChild (o : Organism) (r1 r2 : Fin 27 → ℚ) (d : ℚ × ℚ) : Organism :=
  { pos := o.pos
    dir := d
    speed := ORGANISM_DEFAULT_SPEED
    energy := 1 / 2
    age := 1
    lifetime := ORGANISM_DEFAULT_LIFETIME
    gene := mutate o.gene r1 r2
    pregnant := false }

/-- `grow_organism` for one organism.  `none` means the organism was
despawned; otherwise the updated organism is returned together with the
list of spawned children, one `growChild` per loop iteration.  (The
sprite-scale update `ORGANISM_SIZE * energy.sqrt()` is not modelled: no
claim refers to it.) -/
def growOrganism (o : Organism)
    (r1 r2 : Fin CHILDREN_PER_PREGNANCY → Fin 27 → ℚ)
    (dirs : Fin CHILDREN_PER_PREGNANCY → ℚ × ℚ) :
    Option (Organism × List Organism) :=
  if o.energy < ORGANISM_MIN_ENERGY ∨ o.energy > ORGANISM_MAX_ENERGY then
    none
  else if o.pregnant then
    some ({ o with energy := 1, pregnant := false },
      List.ofFn fun k => growChild o (r1 k) (r2 k) (dirs k))
  else
    some (o, [])

/-- What claim C1 asserts about the pregnant branch of a growth tick:
energy reset to the baseline `1.0`, pregnancy cleared, exactly
`CHILDREN_PER_PREGNANCY` offspring spawned at the parent's current
position, each with an independently mutated copy of the parent's genome,
starting energy below the parent's post-tick baseline, the default
lifetime and speed, age 1, not pregnant, and its own freshly drawn
heading. -/
def pregnantGrowOutcome (o : Organism)
    (r1 r2 : Fin CHILDREN_PER_PREGNANCY → Fin 27 → ℚ)
    (dirs : Fin CHILDREN_PER_PREGNANCY → ℚ × ℚ) : Prop :=
  ∃ o' cs, growOrganism o r1 r2 dirs = some (o', cs)
    ∧ o'.energy = 1 ∧ o'.pregnant = false ∧ o'.pos = o.pos ∧ o'.gene = o.gene
    ∧ cs.length = CHILDREN_PER_PREGNANCY
    ∧ ∀ (k : Fin CHILDREN_PER_PREGNANCY) (hk : k.val < cs.length),
        (cs.get ⟨k.val, hk⟩).pos = o.pos
        ∧ (cs.get ⟨k.val, hk⟩).gene = mutate o.gene (r1 k) (r2 k)
        ∧ (cs.get ⟨k.val, hk⟩).energy = 1 / 2
        ∧ (cs.get ⟨k.val, hk⟩).energy < o'.energy
        ∧ (cs.get ⟨k.val, hk⟩).lifetime = ORGANISM_DEFAULT_LIFETIME
        ∧ (cs.get ⟨k.val, hk⟩).speed = ORGANISM_DEFAULT_SPEED
        ∧ (cs.get ⟨k.val, hk⟩).dir = dirs k
        ∧ (cs.get ⟨k.val, hk⟩).age = 1
        ∧ (cs.get ⟨k.val, hk⟩).pregnant = false

/-- Concrete organism for the C1 witness, in range and pregnant. -/
def testOrgPreg : Organism :=
  { pos := (10, 20), dir := (1, 0), speed := 8, energy := 3, age := 30,
    lifetime := 100, gene := testGene, pregnant := true }

/-- Concrete organism for the C1 witness, out of energy range. -/
def testOrgDead : Organism :=
  { pos := (10, 20), dir := (1, 0), speed := 8, energy := 5, age := 30,
    lifetime := 100, gene := testGene, pregnant := true }

/-- Per-child mutation draws for the C1 witness. -/
def testChildR : Fin CHILDREN_PER_PREGNANCY → Fin 27 → ℚ := fun _ _ => 1 / 2

/-- Per-child headings for the C1 witness. -/
def testChildDirs : Fin CHILDREN_PER_PREGNANCY → ℚ × ℚ := fun _ => (0, 1)

/-- The normalized x position `(x_pos - LEFT_BOUNDARY) /
(RIGHT_BOUNDARY - LEFT_BOUNDARY)` computed in `adjust_direction`. -/
def xFrac (pos : ℚ × ℚ) : ℚ :=
  (pos.1 - LEFT_BOUNDARY) / (RIGHT_BOUNDARY - LEFT_BOUNDARY)

/-- The normalized y position computed in `adjust_direction`. -/
def yFrac (pos : ℚ × ℚ) : ℚ :=
  (pos.2 - BOTTOM_BOUNDARY) / (TOP_BOUNDARY - BOTTOM_BOUNDARY)

/-- The border-avoidance condition of `adjust_direction`: within 10% of an
arena edge with the heading pointing further out on that axis. -/
def borderOverride (pos dir : ℚ × ℚ) : Bool :=
  decide ((xFrac pos < 1 / 10 ∧ dir.1 < 0) ∨ (xFrac pos > 9 / 10 ∧ dir.1 > 0)
    ∨ (yFrac pos < 1 / 10 ∧ dir.2 < 0) ∨ (yFrac pos > 9 / 10 ∧ dir.2 > 0))

/-- The 8-element input vector `adjust_direction` passes to
`GeneInfo::process`.  `foods` is the cone-accumulator triple
`(foods[0], foods[1], foods[2])` (left, ahead, right) computed from the
trigonometric food scan; when `borderOverride` holds, `foods[1]` is
replaced by the sentinel `-1.0` before the final clamp to `[0, 1]`. -/
def sensoryInputs (pos dir : ℚ × ℚ) (speed energy : ℚ) (lifetime : ℕ)
    (foods : ℚ × ℚ × ℚ) : Fin 8 → ℚ := fun i =>
  match i with
  | ⟨0, _⟩ => speed / ORGANISM_DEFAULT_SPEED
  | ⟨1, _⟩ => xFrac pos
  | ⟨2, _⟩ => yFrac pos
  | ⟨3, _⟩ => (energy - ORGANISM_MIN_ENERGY) / (ORGANISM_MAX_ENERGY - ORGANISM_MIN_ENERGY)
  | ⟨4, _⟩ => (lifetime : ℚ) / (ORGANISM_DEFAULT_LIFETIME : ℚ)
  | ⟨5, _⟩ => clamp foods.1 0 1
  | ⟨6, _⟩ => clamp (if borderOverride pos dir then -1 else foods.2.1) 0 1
  | ⟨7, _⟩ => clamp foods.2.2 0 1
  | ⟨n + 8, h⟩ => absurd h (by omega)

/-- The systems added to `CoreSchedule::FixedUpdate`. -/
inductive SystemId
  | pheromoneFade
  | logThings
  | generateFood
  | ageProgression
  | checkForCollisions
  | applyDirection
  | growOrganism
  | adjustDirection
deriving DecidableEq

/-- All systems of the fixed-update schedule. -/
def allSystems : List SystemId :=
  [SystemId.pheromoneFade, SystemId.logThings, SystemId.generateFood,
    SystemId.ageProgression, SystemId.checkForCollisions,
    SystemId.applyDirection, SystemId.growOrganism, SystemId.adjustDirection]

/-- The ordering constraints declared in `HelloPlugin::build`:
`apply_direction.before(adjust_direction)`,
`grow_organism.after(check_for_collisions)`,
`adjust_direction.after(check_for_collisions)`.  Systems not related by
these constraints (transitively) may be executed in either order by the
scheduler. -/
def declaredBefore : List (SystemId × SystemId) :=
  [(SystemId.applyDirection, SystemId.adjustDirection),
    (SystemId.checkForCollisions, SystemId.growOrganism),
    (SystemId.checkForCollisions, SystemId.adjustDirection)]

/-- One declared edge. -/
def scheduleEdge (a b : SystemId) : Bool := (a, b) ∈ declaredBefore

/-- Reachability along declared edges, fuel-bounded. -/
def scheduleReach : ℕ → SystemId → SystemId → Bool
  | 0, a, b => scheduleEdge a b
  | n + 1, a, b =>
    scheduleEdge a b || allSystems.any fun c => scheduleEdge a c && scheduleReach n c b

/-- `a` is guaranteed to run before `b` in every tick: `(a, b)` is in the
transitive closure of the declared constraints. -/
def guaranteedBefore (a b : SystemId) : Bool :=
  scheduleReach allSystems.length a b

/-- `Vec2::length`. -/
noncomputable def vecLength (v : ℝ × ℝ) : ℝ := Real.sqrt (v.1 ^ 2 + v.2 ^ 2)

/-- The two in-place component updates of `rotate_direction` before the
normalization block.  As in the source, the new y component is computed
from the already-updated x component (`direction.x` has been overwritten
when `direction.y` is assigned). -/
noncomputable def rotRaw (v : ℝ × ℝ) (angle : ℝ) : ℝ × ℝ :=
  (Real.cos angle * v.1 + Real.sin angle * v.2,
    -Real.sin angle * (Real.cos angle * v.1 + Real.sin angle * v.2)
      + Real.cos angle * v.2)

/-- The normalization block of `rotate_direction`.  As in the source,
when the length exceeds `0.01`, `direction.x /= direction.length()` runs
first and `direction.y /= direction.length()` then divides by the length
recomputed after x changed; otherwise both components are set to
`1 / sqrt 2`. -/
noncomputable def rotNorm (d : ℝ × ℝ) : ℝ × ℝ :=
  if vecLength d > 1 / 100 then
    (d.1 / vecLength d, d.2 / vecLength (d.1 / vecLength d, d.2))
  else
    (1 / Real.sqrt 2, 1 / Real.sqrt 2)

/-- `rotate_direction(direction, angle)`. -/
noncomputable def rotateDirection (v : ℝ × ℝ) (angle : ℝ) : ℝ × ℝ :=
  rotNorm (rotRaw v angle)

/-! ## Theorems -/

theorem clamp_bounds (x lo hi : ℚ) (h : lo ≤ hi) :
    lo ≤ clamp x lo hi ∧ clamp x lo hi ≤ hi := by
  constructor
  · exact le_min (le_max_right x lo) h
  · exact min_le_right _ _

theorem clamp_of_mem (x lo hi : ℚ) (h1 : lo ≤ x) (h2 : x ≤ hi) :
    clamp x lo hi = x := by
  unfold clamp
  rw [max_eq_left h1, min_eq_left h2]

/-- Claim C2: for every genome (27 reals) and every 8-element input
vector, `process` returns exactly 3 outputs; output `j` equals
`clamp(bias_j + dot(weights_j, inputs), -1, 1)` with no other
nonlinearity, and the genome is partitioned into the 3 bias indices and 3
pairwise-disjoint weight groups of 8 that together cover all 27 genes. -/
theorem process_decode_spec :
    (∀ (g : Genome) (inputs : Fin 8 → ℚ) (j : Fin 3),
      process g inputs j =
        clamp (g (biasIndex j) + ∑ i : Fin 8, g (weightIndex j i) * inputs i) (-1) 1)
    ∧ biasSet ∪ weightSet 0 ∪ weightSet 1 ∪ weightSet 2 = Finset.univ
    ∧ biasSet.card = 3
    ∧ ((weightSet 0).card = 8 ∧ (weightSet 1).card = 8 ∧ (weightSet 2).card = 8)
    ∧ (biasSet ∩ weightSet 0 = ∅ ∧ biasSet ∩ weightSet 1 = ∅ ∧ biasSet ∩ weightSet 2 = ∅)
    ∧ (weightSet 0 ∩ weightSet 1 = ∅ ∧ weightSet 0 ∩ weightSet 2 = ∅
        ∧ weightSet 1 ∩ weightSet 2 = ∅) := by
  refine ⟨?_, by decide, by decide, by decide, by decide, by decide⟩
  intro g inputs j
  match j with
  | ⟨0, _⟩ => rfl
  | ⟨1, _⟩ => rfl
  | ⟨2, _⟩ => rfl

/-- Claim C5: for every 27-element genome with every gene in `[-1,1]` and
uniform draws in `[0,1)`, `mutate` returns a 27-element vector with every
value in `[-1,1]`; each gene is independently, when its decision draw
succeeds, replaced by `clamp(gene + uniform(-0.25, 0.25), -1, 1)` and
otherwise left exactly unchanged; with mutation probability 0, the result
is the input unchanged. -/
theorem mutate_spec (g : Genome) (r1 r2 : Fin 27 → ℚ)
    (hg : ∀ i, -1 ≤ g i ∧ g i ≤ 1)
    (hr1 : ∀ i, 0 ≤ r1 i ∧ r1 i < 1)
    (hr2 : ∀ i, 0 ≤ r2 i ∧ r2 i < 1) :
    (∀ i, -1 ≤ mutate g r1 r2 i ∧ mutate g r1 r2 i ≤ 1)
    ∧ (∀ i, ¬ r1 i < MUTATION_RATE → mutate g r1 r2 i = g i)
    ∧ (∀ i, r1 i < MUTATION_RATE →
        ∃ d, -(1 / 4 : ℚ) ≤ d ∧ d < 1 / 4
          ∧ mutate g r1 r2 i = clamp (g i + d) (-1) 1)
    ∧ (∀ i, mutateWith 0 g r1 r2 i = g i) := by
  refine ⟨?_, ?_, ?_, ?_⟩
  · intro i
    unfold mutate mutateWith
    by_cases h : r1 i < MUTATION_RATE
    · rw [if_pos h]
      exact clamp_bounds _ _ _ (by norm_num)
    · rw [if_neg h]
      exact hg i
  · intro i h
    unfold mutate mutateWith
    rw [if_neg h]
  · intro i h
    refine ⟨r2 i / 2 - 1 / 4, ?_, ?_, ?_⟩
    · have := (hr2 i).1; linarith
    · have := (hr2 i).2; linarith
    · unfold mutate mutateWith
      rw [if_pos h]
      congr 1
      ring
  · intro i
    unfold mutateWith
    rw [if_neg (not_lt.mpr (hr1 i).1)]

/-- Witness for claim C5 at a concrete genome and concrete draws. -/
theorem mutate_spec_witness :
    ((∀ i, -1 ≤ testGene i ∧ testGene i ≤ 1)
      ∧ (∀ i, 0 ≤ testR1 i ∧ testR1 i < 1)
      ∧ (∀ i, 0 ≤ testR2 i ∧ testR2 i < 1))
    ∧ ((∀ i, -1 ≤ mutate testGene testR1 testR2 i ∧ mutate testGene testR1 testR2 i ≤ 1)
      ∧ (∀ i, ¬ testR1 i < MUTATION_RATE → mutate testGene testR1 testR2 i = testGene i)
      ∧ (∀ i, testR1 i < MUTATION_RATE →
          ∃ d, -(1 / 4 : ℚ) ≤ d ∧ d < 1 / 4
            ∧ mutate testGene testR1 testR2 i = clamp (testGene i + d) (-1) 1)
      ∧ (∀ i, mutateWith 0 testGene testR1 testR2 i = testGene i)) :=
  ⟨⟨of_decide_eq_true (by with_unfolding_all rfl),
    of_decide_eq_true (by with_unfolding_all rfl),
    of_decide_eq_true (by with_unfolding_all rfl)⟩,
    mutate_spec testGene testR1 testR2
      (of_decide_eq_true (by with_unfolding_all rfl))
      (of_decide_eq_true (by with_unfolding_all rfl))
      (of_decide_eq_true (by with_unfolding_all rfl))⟩

/-- Claim C4: wall reflection law.  For a Left-edge collision, the heading
is reflected in x exactly when it points into the wall (`d.x > 0`), with
the y component untouched; symmetrically for the other edges only the
component pointing into the struck edge is negated, and an Inside
classification causes no reflection.  The last conjunct ties this to the
collision pass: a non-food collider hit updates the heading by
`wallReflect` of the computed classification. -/
theorem wall_reflection_spec (d : ℚ × ℚ) :
    (d.1 > 0 → wallReflect d Collision.Left = (-d.1, d.2))
    ∧ (d.1 ≤ 0 → wallReflect d Collision.Left = d)
    ∧ (d.1 < 0 → wallReflect d Collision.Right = (-d.1, d.2))
    ∧ (0 ≤ d.1 → wallReflect d Collision.Right = d)
    ∧ (d.2 < 0 → wallReflect d Collision.Top = (d.1, -d.2))
    ∧ (0 ≤ d.2 → wallReflect d Collision.Top = d)
    ∧ (d.2 > 0 → wallReflect d Collision.Bottom = (d.1, -d.2))
    ∧ (d.2 ≤ 0 → wallReflect d Collision.Bottom = d)
    ∧ wallReflect d Collision.Inside = d
    ∧ (∀ (o : OrgCol) (c : Collider) (i : ℕ) (draws : ℕ → ℚ) (col : Collision),
        c.isFood = false → collide o.pos o.size c.pos c.size = some col →
        (collideOne [(i, c)] draws (initPass o)).org.dir = wallReflect o.dir col) := by
  refine ⟨?_, ?_, ?_, ?_, ?_, ?_, ?_, ?_, ?_, ?_⟩
  · intro h; simp [wallReflect, h]
  · intro h; simp [wallReflect, not_lt.mpr h]
  · intro h; simp [wallReflect, h, not_lt.mpr (le_of_lt h)]
  · intro h; simp [wallReflect, not_lt.mpr h]
  · intro h; simp [wallReflect, h]
  · intro h; simp [wallReflect, not_lt.mpr h]
  · intro h; simp [wallReflect, h]
  · intro h; simp [wallReflect, not_lt.mpr h]
  · simp [wallReflect]
  · intro o c i draws col hfood hcol
    simp [collideOne, initPass, hcol, hfood]

/-- Witness for claim C4 at concrete headings, including a concrete
non-food collider classified as a Left-edge contact. -/
theorem wall_reflection_spec_witness :
    wallReflect (3, 5) Collision.Left = (-3, 5)
    ∧ wallReflect (-2, 5) Collision.Left = (-2, 5)
    ∧ wallReflect (3, -4) Collision.Top = (3, 4)
    ∧ wallReflect (3, 5) Collision.Inside = (3, 5)
    ∧ (collideOne [(7, testWall)] (fun _ => 0) (initPass testOrg4)).org.dir
      = wallReflect (3, 5) Collision.Left :=
  ⟨(wall_reflection_spec (3, 5)).1 (by norm_num),
    (wall_reflection_spec (-2, 5)).2.1 (by norm_num),
    (wall_reflection_spec (3, -4)).2.2.2.2.1 (by norm_num),
    (wall_reflection_spec (3, 5)).2.2.2.2.2.2.2.2.1,
    (wall_reflection_spec (3, 5)).2.2.2.2.2.2.2.2.2
      testOrg4 testWall 7 (fun _ => 0) Collision.Left rfl
      (of_decide_eq_true (by with_unfolding_all rfl))⟩

/-- One food-collision step of `check_for_collisions`, written out: the
energy credit is the constant `0.2`, the despawn is queued, the event is
appended, the pregnancy flag is or-ed with the triggered draw, and the
draw counter advances exactly when the thresholds held. -/
theorem collideOne_food (st : PassState) (c : Collider) (i : ℕ)
    (draws : ℕ → ℚ) (hf : c.isFood = true) (col : Collision)
    (hcol : collide st.org.pos st.org.size c.pos c.size = some col) :
    collideOne [(i, c)] draws st =
      { org := { st.org with
          energy := st.org.energy + 1 / 5
          pregnant :=
            (decide (st.org.energy + 1 / 5 > PREGNANCY_ENERGY_MINIMUM
                ∧ st.org.age > FERTILE_AGE)
              && decide (draws st.rng < PREGNANT_PROBABILITY)
              || st.org.pregnant) }
        despawn := st.despawn ++ [i]
        events := st.events ++ [CollisionEvent.Food]
        rng :=
          if decide (st.org.energy + 1 / 5 > PREGNANCY_ENERGY_MINIMUM
              ∧ st.org.age > FERTILE_AGE) = true
          then st.rng + 1 else st.rng } := by
  rcases Bool.eq_false_or_eq_true
      (decide (st.org.energy + 1 / 5 > PREGNANCY_ENERGY_MINIMUM
        ∧ st.org.age > FERTILE_AGE)) with hA | hA <;>
    rcases Bool.eq_false_or_eq_true
        (decide (draws st.rng < PREGNANT_PROBABILITY)) with hB | hB <;>
      simp [collideOne, hcol, hf, hA, hB]

/-- Counterexample to claim C3: an organism collides with a food entity
spawned by `generate_food` (stored energy `0.1`), but its energy grows by
the hard-coded `0.2`, which is not the energy value the food entity was
spawned with. -/
theorem food_energy_credit_cx :
    collide testOrg3.pos testOrg3.size (spawnFood (0, 0)).pos
        (spawnFood (0, 0)).size ≠ none
    ∧ (collideOne [(0, spawnFood (0, 0))] testDraws (initPass testOrg3)).org.energy
        = testOrg3.energy + 1 / 5
    ∧ testOrg3.energy + 1 / 5 ≠ testOrg3.energy + (spawnFood (0, 0)).energy :=
  of_decide_eq_true (by with_unfolding_all rfl)

/-- Claim C3 (amended): on a food collision the food entity is queued for
destruction, the organism's energy increases by the fixed constant `0.2`
(not the food's stored energy value), a Food collision event is emitted,
and the organism ends up pregnant exactly when it already was or the
post-credit energy exceeds the pregnancy threshold, the age exceeds the
fertility threshold, and the uniform draw beats `PREGNANT_PROBABILITY`. -/
theorem food_collision_spec (o : OrgCol) (c : Collider) (i : ℕ) (draws : ℕ → ℚ)
    (hf : c.isFood = true) (hc : collide o.pos o.size c.pos c.size ≠ none) :
    (collideOne [(i, c)] draws (initPass o)).org.energy = o.energy + 1 / 5
    ∧ (collideOne [(i, c)] draws (initPass o)).despawn = [i]
    ∧ (collideOne [(i, c)] draws (initPass o)).events = [CollisionEvent.Food]
    ∧ ((collideOne [(i, c)] draws (initPass o)).org.pregnant = true ↔
        ((o.energy + 1 / 5 > PREGNANCY_ENERGY_MINIMUM ∧ o.age > FERTILE_AGE
            ∧ draws 0 < PREGNANT_PROBABILITY) ∨ o.pregnant = true)) := by
  obtain ⟨col, hcol⟩ : ∃ col, collide o.pos o.size c.pos c.size = some col := by
    cases h : collide o.pos o.size c.pos c.size with
    | none => exact absurd h hc
    | some col => exact ⟨col, rfl⟩
  rw [collideOne_food (initPass o) c i draws hf col hcol]
  refine ⟨rfl, by simp [initPass], rfl, ?_⟩
  simp only [initPass, Bool.or_eq_true, Bool.and_eq_true, decide_eq_true_eq]
  tauto

/-- Witness for the amended claim C3: the concrete organism gains exactly
`0.2` energy, the food despawn is queued, the event is emitted, and no
pregnancy results (its post-credit energy `1.2` is below the threshold). -/
theorem food_collision_spec_witness :
    (collideOne [(0, spawnFood (0, 0))] testDraws (initPass testOrg3)).org.energy
        = testOrg3.energy + 1 / 5
    ∧ (collideOne [(0, spawnFood (0, 0))] testDraws (initPass testOrg3)).despawn = [0]
    ∧ (collideOne [(0, spawnFood (0, 0))] testDraws (initPass testOrg3)).events
        = [CollisionEvent.Food]
    ∧ ((collideOne [(0, spawnFood (0, 0))] testDraws (initPass testOrg3)).org.pregnant
          = true ↔
        ((testOrg3.energy + 1 / 5 > PREGNANCY_ENERGY_MINIMUM
            ∧ testOrg3.age > FERTILE_AGE
            ∧ testDraws 0 < PREGNANT_PROBABILITY) ∨ testOrg3.pregnant = true)) :=
  food_collision_spec testOrg3 (spawnFood (0, 0)) 0 testDraws rfl
    (of_decide_eq_true (by with_unfolding_all rfl))

/-- Claim C10: within a single collision-resolution pass, two organisms
overlapping the same food entity both receive the full energy credit and
each evaluates the pregnancy trigger with its own draw, because the food's
destruction is a deferred command (it is queued twice); the total energy
credited exceeds the food's own stored energy value. -/
theorem shared_food_double_credit (o1 o2 : OrgCol) (f : Collider)
    (draws : ℕ → ℚ) (hf : f.isFood = true) (hfe : f.energy = 1 / 10)
    (h1 : collide o1.pos o1.size f.pos f.size ≠ none)
    (h2 : collide o2.pos o2.size f.pos f.size ≠ none) :
    ∃ o1' o2', (checkForCollisions [o1, o2] [f] draws).orgs = [o1', o2']
      ∧ o1'.energy = o1.energy + 1 / 5
      ∧ o2'.energy = o2.energy + 1 / 5
      ∧ (checkForCollisions [o1, o2] [f] draws).despawn = [0, 0]
      ∧ o1'.pregnant =
          (decide (o1.energy + 1 / 5 > PREGNANCY_ENERGY_MINIMUM
              ∧ o1.age > FERTILE_AGE)
            && decide (draws 0 < PREGNANT_PROBABILITY) || o1.pregnant)
      ∧ (∃ n, o2'.pregnant =
          (decide (o2.energy + 1 / 5 > PREGNANCY_ENERGY_MINIMUM
              ∧ o2.age > FERTILE_AGE)
            && decide (draws n < PREGNANT_PROBABILITY) || o2.pregnant))
      ∧ (o1'.energy - o1.energy) + (o2'.energy - o2.energy) > f.energy := by
  obtain ⟨col1, hcol1⟩ : ∃ col, collide o1.pos o1.size f.pos f.size = some col := by
    cases h : collide o1.pos o1.size f.pos f.size with
    | none => exact absurd h h1
    | some col => exact ⟨col, rfl⟩
  obtain ⟨col2, hcol2⟩ : ∃ col, collide o2.pos o2.size f.pos f.size = some col := by
    cases h : collide o2.pos o2.size f.pos f.size with
    | none => exact absurd h h2
    | some col => exact ⟨col, rfl⟩
  have henum : ([f] : List Collider).enum = [(0, f)] := rfl
  simp only [checkForCollisions, henum, List.foldl_cons, List.foldl_nil]
  rw [collideOne_food ⟨o1, [], [], 0⟩ f 0 draws hf col1 hcol1]
  simp only [List.nil_append, Nat.zero_add]
  rw [collideOne_food
    ⟨o2, [0],
      [CollisionEvent.Food],
      if decide (o1.energy + 1 / 5 > PREGNANCY_ENERGY_MINIMUM
          ∧ o1.age > FERTILE_AGE) = true then 1 else 0⟩
    f 0 draws hf col2 hcol2]
  refine ⟨_, _, rfl, rfl, rfl, rfl, rfl, ⟨_, rfl⟩, ?_⟩
  rw [hfe]
  norm_num

/-- Witness for claim C10: two concrete organisms overlapping one spawned
food item both get the full `0.2` credit and the food despawn is queued
twice. -/
theorem shared_food_double_credit_witness :
    ∃ o1' o2',
      (checkForCollisions [testOrg3, testOrg10] [spawnFood (0, 0)] testDraws).orgs
          = [o1', o2']
      ∧ o1'.energy = testOrg3.energy + 1 / 5
      ∧ o2'.energy = testOrg10.energy + 1 / 5
      ∧ (checkForCollisions [testOrg3, testOrg10] [spawnFood (0, 0)]
          testDraws).despawn = [0, 0]
      ∧ o1'.pregnant =
          (decide (testOrg3.energy + 1 / 5 > PREGNANCY_ENERGY_MINIMUM
              ∧ testOrg3.age > FERTILE_AGE)
            && decide (testDraws 0 < PREGNANT_PROBABILITY) || testOrg3.pregnant)
      ∧ (∃ n, o2'.pregnant =
          (decide (testOrg10.energy + 1 / 5 > PREGNANCY_ENERGY_MINIMUM
              ∧ testOrg10.age > FERTILE_AGE)
            && decide (testDraws n < PREGNANT_PROBABILITY) || testOrg10.pregnant))
      ∧ (o1'.energy - testOrg3.energy) + (o2'.energy - testOrg10.energy)
          > (spawnFood (0, 0)).energy :=
  shared_food_double_credit testOrg3 testOrg10 (spawnFood (0, 0)) testDraws
    rfl rfl
    (of_decide_eq_true (by with_unfolding_all rfl))
    (of_decide_eq_true (by with_unfolding_all rfl))

/-- Claim C1: on a growth tick, an organism whose energy is outside
`[E_min, E_max] = [0.2, 4.0]` is destroyed; otherwise, if it is pregnant,
its energy resets to `1.0`, the pregnant flag clears and exactly the
configured number of offspring are spawned as described by
`pregnantGrowOutcome`; otherwise it is left unchanged with no spawns. -/
theorem grow_organism_spec (o : Organism)
    (r1 r2 : Fin CHILDREN_PER_PREGNANCY → Fin 27 → ℚ)
    (dirs : Fin CHILDREN_PER_PREGNANCY → ℚ × ℚ) :
    ((o.energy < ORGANISM_MIN_ENERGY ∨ o.energy > ORGANISM_MAX_ENERGY) →
        growOrganism o r1 r2 dirs = none)
    ∧ (¬(o.energy < ORGANISM_MIN_ENERGY ∨ o.energy > ORGANISM_MAX_ENERGY) →
        o.pregnant = true → pregnantGrowOutcome o r1 r2 dirs)
    ∧ (¬(o.energy < ORGANISM_MIN_ENERGY ∨ o.energy > ORGANISM_MAX_ENERGY) →
        o.pregnant = false → growOrganism o r1 r2 dirs = some (o, [])) := by
  refine ⟨?_, ?_, ?_⟩
  · intro h
    simp [growOrganism, h]
  · intro h hp
    have heq : growOrganism o r1 r2 dirs =
        some ({ o with energy := 1, pregnant := false },
          List.ofFn fun k => growChild o (r1 k) (r2 k) (dirs k)) := by
      simp [growOrganism, h, hp]
    refine ⟨_, _, heq, rfl, rfl, rfl, rfl, List.length_ofFn _, ?_⟩
    intro k hk
    have hget : (List.ofFn fun k => growChild o (r1 k) (r2 k) (dirs k)).get
        ⟨k.val, hk⟩ = growChild o (r1 k) (r2 k) (dirs k) := by
      rw [List.get_ofFn]
      simp
    rw [hget]
    exact ⟨rfl, rfl, rfl, by norm_num [growChild], rfl, rfl, rfl, rfl, rfl⟩
  · intro h hp
    simp [growOrganism, h, hp]

/-- Witness for claim C1: the out-of-range organism is destroyed and the
pregnant in-range organism produces the specified brood. -/
theorem grow_organism_spec_witness :
    growOrganism testOrgDead testChildR testChildR testChildDirs = none
    ∧ pregnantGrowOutcome testOrgPreg testChildR testChildR testChildDirs :=
  ⟨(grow_organism_spec testOrgDead testChildR testChildR testChildDirs).1
      (of_decide_eq_true (by with_unfolding_all rfl)),
    (grow_organism_spec testOrgPreg testChildR testChildR testChildDirs).2.1
      (of_decide_eq_true (by with_unfolding_all rfl)) rfl⟩

/-- Counterexample to claim C8: an organism within 10% of the right arena
edge and heading outward has the border override active, yet the "ahead"
entry of the input vector handed to `process` is `0`, not the sentinel
`-1`: the sentinel is wiped by the final `clamp(0.0, 1.0)`. -/
theorem border_override_sentinel_cx :
    borderOverride (590, 0) (1, 0) = true
    ∧ sensoryInputs (590, 0) (1, 0) 8 1 100 (0, 0, 0) ⟨6, by omega⟩ = 0
    ∧ ((0 : ℚ) ≠ -1) :=
  of_decide_eq_true (by with_unfolding_all rfl)

/-- Claim C8 (amended): whenever the organism is within 10% of the arena
edge (either axis) with the heading pointing further outward, the "ahead"
food-sensor entry passed to `process` equals `0`: internally the sentinel
`-1` overrides the cone accumulator, but the clamp to `[0, 1]` applied to
the food sensors zeroes it before `process` sees it. -/
theorem border_override_zeroes_ahead (pos dir : ℚ × ℚ) (speed energy : ℚ)
    (lifetime : ℕ) (foods : ℚ × ℚ × ℚ)
    (h : borderOverride pos dir = true) :
    sensoryInputs pos dir speed energy lifetime foods ⟨6, by omega⟩ = 0 := by
  show clamp (if borderOverride pos dir then -1 else foods.2.1) 0 1 = 0
  rw [h]
  norm_num [clamp]

/-- Witness for the amended claim C8 at a concrete near-edge state. -/
theorem border_override_zeroes_ahead_witness :
    borderOverride (590, 0) (1, 0) = true
    ∧ sensoryInputs (590, 0) (1, 0) 8 1 100 (1, 1, 1) ⟨6, by omega⟩ = 0 :=
  ⟨of_decide_eq_true (by with_unfolding_all rfl),
    border_override_zeroes_ahead (590, 0) (1, 0) 8 1 100 (1, 1, 1)
      (of_decide_eq_true (by with_unfolding_all rfl))⟩

/-- Claim C9 fails on the code: the fifth input entry is
`lifetime / ORGANISM_DEFAULT_LIFETIME`, which for the default lifetime
`100` is the constant `1` whatever the organism's age; the spec's age
fraction for an organism of age 5 would be `5 / 100`.  (`adjust_direction`
does not even read the `Age` component: `sensoryInputs` has no age
argument.) -/
theorem lifetime_input_constant :
    sensoryInputs (0, 0) (1, 0) 8 1 100 (0, 0, 0) ⟨4, by omega⟩ = 1
    ∧ ((1 : ℚ) ≠ 5 / 100) :=
  of_decide_eq_true (by with_unfolding_all rfl)

/-- Counterexample to claim C7: the schedule gives no guarantee that
movement integration (`apply_direction`, which queues the out-of-bounds
despawn) runs before collision resolution or before reproduction/growth in
the same tick: neither ordering is derivable from the declared
constraints. -/
theorem boundary_despawn_order_cx :
    guaranteedBefore SystemId.applyDirection SystemId.checkForCollisions = false
    ∧ guaranteedBefore SystemId.applyDirection SystemId.growOrganism = false := by
  decide

/-- Claim C7 (amended): an out-of-bounds organism is despawned by a
deferred command queued in `apply_direction`; the declared schedule
guarantees only that `apply_direction` runs before the sensory decision
update (`adjust_direction`) — there is no guaranteed ordering of
`apply_direction` before `check_for_collisions` or `grow_organism`, so
same-tick destruction before those subsystems reference the organism is
not guaranteed. -/
theorem boundary_despawn_order_spec :
    guaranteedBefore SystemId.applyDirection SystemId.adjustDirection = true
    ∧ guaranteedBefore SystemId.applyDirection SystemId.checkForCollisions = false
    ∧ guaranteedBefore SystemId.applyDirection SystemId.growOrganism = false
    ∧ guaranteedBefore SystemId.checkForCollisions SystemId.growOrganism = true
    ∧ guaranteedBefore SystemId.checkForCollisions SystemId.adjustDirection = true := by
  decide

/-- Claim C6 fails on the code: rotating the unit heading `(1, 0)` by the
angle `π/4` yields a heading of length `sqrt (31/33) ≠ 1`.  The raw
update is not a rotation (the y formula reuses the updated x) and the
normalization divides y by a length recomputed after x was already
divided, so the result is not unit-length. -/
theorem rotate_direction_not_unit :
    vecLength (rotateDirection (1, 0) (Real.pi / 4)) ≠ 1 := by
  have h2 : Real.sqrt 2 ^ 2 = 2 := Real.sq_sqrt (by norm_num)
  have h34 : Real.sqrt (3 / 4) ^ 2 = 3 / 4 := Real.sq_sqrt (by norm_num)
  have h1112 : Real.sqrt (11 / 12) ^ 2 = 11 / 12 := Real.sq_sqrt (by norm_num)
  have hraw : rotRaw (1, 0) (Real.pi / 4) = (Real.sqrt 2 / 2, -(1 / 2)) := by
    unfold rotRaw
    rw [Real.cos_pi_div_four, Real.sin_pi_div_four]
    simp only [Prod.mk.injEq]
    constructor
    · ring
    · ring_nf
      nlinarith [h2]
  have hL1 : vecLength (Real.sqrt 2 / 2, -(1 / 2)) = Real.sqrt (3 / 4) := by
    unfold vecLength
    congr 1
    rw [div_pow, h2]
    norm_num
  have hA2 : ((Real.sqrt 2 / 2) / Real.sqrt (3 / 4)) ^ 2 = 2 / 3 := by
    rw [div_pow, div_pow, h2, h34]
    norm_num
  have hL2 : vecLength ((Real.sqrt 2 / 2) / Real.sqrt (3 / 4), -(1 / 2))
      = Real.sqrt (11 / 12) := by
    unfold vecLength
    congr 1
    rw [hA2]
    norm_num
  have hB2 : (-(1 / 2) / Real.sqrt (11 / 12)) ^ 2 = 3 / 11 := by
    rw [div_pow, h1112]
    norm_num
  have hrot : rotateDirection (1, 0) (Real.pi / 4)
      = ((Real.sqrt 2 / 2) / Real.sqrt (3 / 4),
        -(1 / 2) / Real.sqrt (11 / 12)) := by
    unfold rotateDirection
    rw [hraw]
    unfold rotNorm
    rw [hL1]
    rw [if_pos]
    · simp only []
      rw [hL2]
    · exact Real.lt_sqrt_of_sq_lt (by norm_num)
  rw [hrot]
  show Real.sqrt ((Real.sqrt 2 / 2 / Real.sqrt (3 / 4)) ^ 2
      + (-(1 / 2) / Real.sqrt (11 / 12)) ^ 2) ≠ 1
  rw [hA2, hB2, Ne, Real.sqrt_eq_one]
  norm_num

end EvolutionGame
